import Mathlib

/- Shallow embedding of the realtime session manager of the JARVIS voice
   front-end (the App component in the repository): the session lifecycle
   controller with capped exponential reconnection backoff, the playback
   scheduler, the transcript assembler and the bounded transcription
   history.  Each definition mirrors the corresponding block of the
   source; mutable React refs become fields of explicit state records and
   each callback becomes a state-transition function. -/

namespace Jarvis

/-- The `JarvisStatus` enum of the source (types module). -/
inductive JarvisStatus
  | IDLE
  | LISTENING
  | THINKING
  | SPEAKING
  | RECONNECTING
  | ERROR
deriving DecidableEq, Repr

/-- `MAX_RECONNECT_ATTEMPTS = 5` in the source. -/
def MAX_RECONNECT_ATTEMPTS : Nat := 5

/-- `RECONNECT_DELAY_BASE = 3000` in the source. -/
def RECONNECT_DELAY_BASE : Nat := 3000

/-- The delay expression of `handleReconnection`:
`Math.min(15000, RECONNECT_DELAY_BASE * Math.pow(2, reconnectAttempts - 1))`,
evaluated after the attempt counter has been incremented. -/
def reconnectDelay (attemptCount : Nat) : Nat :=
  min 15000 (RECONNECT_DELAY_BASE * 2 ^ (attemptCount - 1))

/-- The mutable refs and status state of the App component.
`reconnectTimer` is `some d` when a reconnection timer with delay `d`
is pending; `openInFlight` records a launched but not yet settled
channel open (the `ai.live.connect` promise); `captureActive` records
that the script-processor capture pipeline is wired. -/
structure Controller where
  status : JarvisStatus
  isConnected : Bool
  isConnecting : Bool
  reconnectAttempts : Nat
  intentionalDisconnect : Bool
  reconnectTimer : Option Nat
  captureActive : Bool
  openInFlight : Bool
deriving DecidableEq, Repr

/-- Initial state of the component: status IDLE, nothing connected. -/
def initialController : Controller :=
  { status := .IDLE
    isConnected := false
    isConnecting := false
    reconnectAttempts := 0
    intentionalDisconnect := false
    reconnectTimer := none
    captureActive := false
    openInFlight := false }

/-- `cleanup`: closes the resolved session, disconnects the script
processor, stops the media stream and playback sources, and resets the
connection flags.  A still-pending channel open has no cancel, so
`openInFlight` is untouched.  The playback cursor reset is modelled in
the separate `PlaybackState`. -/
def cleanup (s : Controller) : Controller :=
  { s with captureActive := false, isConnected := false, isConnecting := false }

/-- `disconnect`: sets the intentional flag first, clears a pending
reconnect timer, runs `cleanup`, then sets status IDLE and resets the
attempt counter. -/
def disconnect (s : Controller) : Controller :=
  let s1 := { s with intentionalDisconnect := true, reconnectTimer := none }
  let s2 := cleanup s1
  { s2 with status := .IDLE, reconnectAttempts := 0 }

/-- `handleReconnection`: after `cleanup`, returns early when the
disconnect was intentional; below the attempt ceiling it increments the
counter and schedules a timer with the capped exponential delay;
at the ceiling it sets status ERROR and resets the counter without
scheduling anything. -/
def handleReconnection (s : Controller) : Controller :=
  let c := cleanup s
  if c.intentionalDisconnect then c
  else if c.reconnectAttempts < MAX_RECONNECT_ATTEMPTS then
    { c with reconnectAttempts := c.reconnectAttempts + 1
             reconnectTimer := some (reconnectDelay (c.reconnectAttempts + 1)) }
  else
    { c with status := .ERROR, reconnectAttempts := 0 }

/-- Outcome of one run of `initSession` past its guards: the API key is
missing (throws into the catch block), some other local failure throws
into the same catch block, or the channel open is launched and left in
flight. -/
inductive AttemptOutcome
  | keyMissing
  | localFailure
  | launched
deriving DecidableEq, Repr

/-- `initSession`: re-entrancy guard, then the connected guard;
status THINKING on a first attempt and RECONNECTING on a retry; the
catch block for a throw (missing key included) clears the connecting
flag, sets status ERROR and calls `handleReconnection`; on the success
path the channel open is launched and stays in flight. -/
def initSession (outcome : AttemptOutcome) (s : Controller) : Controller :=
  if s.isConnecting then s
  else if s.isConnected && !s.intentionalDisconnect then s
  else
    let s1 := { s with isConnecting := true }
    let s2 :=
      if s1.reconnectAttempts = 0 then { s1 with status := .THINKING }
      else { s1 with status := .RECONNECTING }
    match outcome with
    | .keyMissing => handleReconnection { s2 with isConnecting := false, status := .ERROR }
    | .localFailure => handleReconnection { s2 with isConnecting := false, status := .ERROR }
    | .launched => { s2 with openInFlight := true }

/-- The `onopen` callback: marks connected, clears the connecting flag,
sets status IDLE (the connected baseline), clears the intentional flag,
resets the attempt counter and wires the capture pipeline. -/
def onopen (s : Controller) : Controller :=
  { s with isConnected := true
           isConnecting := false
           status := .IDLE
           intentionalDisconnect := false
           reconnectAttempts := 0
           captureActive := true
           openInFlight := false }

/-- The `onclose` and `onerror` callbacks (identical up to the log
text): call `handleReconnection` unless the disconnect was
intentional. -/
def onCloseOrError (s : Controller) : Controller :=
  if s.intentionalDisconnect then s else handleReconnection s

/-- The reconnect timer firing: the timer is consumed, and unless the
disconnect was intentional `initSession` runs with the given outcome. -/
def reconnectTimerFires (outcome : AttemptOutcome) (s : Controller) : Controller :=
  let s1 := { s with reconnectTimer := none }
  if s1.intentionalDisconnect then s1 else initSession outcome s1

/-- The start branch of `toggleSession`: resets the attempt counter and
the intentional flag, then runs `initSession`. -/
def userStart (outcome : AttemptOutcome) (s : Controller) : Controller :=
  initSession outcome { s with reconnectAttempts := 0, intentionalDisconnect := false }

/-- The run in which the user starts a session, the attempt fails, and
each of the five scheduled reconnection attempts fails in turn. -/
def c2_failRun : Controller :=
  reconnectTimerFires .localFailure
    (reconnectTimerFires .localFailure
      (reconnectTimerFires .localFailure
        (reconnectTimerFires .localFailure
          (reconnectTimerFires .localFailure
            (userStart .localFailure initialController)))))

/-- The run in which the user starts a session, the channel open is
still in flight when the user stops the session, and the open then
settles (its `onopen` callback fires). -/
def c9_raceRun : Controller :=
  onopen (disconnect (userStart .launched initialController))

/-- The spec's SessionState enumeration (data-model section). -/
inductive SessionState
  | Idle
  | Connecting
  | Listening
  | Thinking
  | Speaking
  | Reconnecting
  | Error
deriving DecidableEq, Repr

/-- Modelled from the spec: the spec's view of the controller state.
The spec calls the baseline idle-ready connected state `Listening`
(informally idle-connected), which the source represents as status
IDLE with `isConnected` true; the other statuses map by name. -/
def specSessionState (s : Controller) : SessionState :=
  match s.status with
  | .IDLE => if s.isConnected then .Listening else .Idle
  | .LISTENING => .Listening
  | .THINKING => .Thinking
  | .SPEAKING => .Speaking
  | .RECONNECTING => .Reconnecting
  | .ERROR => .Error

/-- State of the playback scheduler: the `nextStartTime` cursor ref, the
set of active buffer-source nodes (by identifier) and, for the
interruption model, the sources on which `stop` has been called.
Times are in seconds on the output audio clock. -/
structure PlaybackState where
  nextStartTime : ℚ
  activeSources : List Nat
  stoppedSources : List Nat
deriving DecidableEq, Repr

/-- Initial playback state: cursor 0, no sources. -/
def initialPlayback : PlaybackState :=
  { nextStartTime := 0, activeSources := [], stoppedSources := [] }

/-- The inbound-audio branch of `onmessage`: the cursor is raised to
`max(nextStartTime, ctx.currentTime)`, the source node starts at that
cursor value, the cursor advances by the buffer's duration, and the
node joins the active set.  Returns the start time handed to
`sourceNode.start` together with the new state; `now` is
`ctx.currentTime` and `dur` the decoded buffer's duration. -/
def scheduleChunk (st : PlaybackState) (srcId : Nat) (now dur : ℚ) : ℚ × PlaybackState :=
  let startAt := max st.nextStartTime now
  (startAt,
   { st with nextStartTime := startAt + dur
             activeSources := srcId :: st.activeSources })

/-- The `ended` listener of a source node: the node leaves the active
set when its playback completes naturally. -/
def sourceEnded (st : PlaybackState) (srcId : Nat) : PlaybackState :=
  { st with activeSources := st.activeSources.filter (fun x => x != srcId) }

/-- The `interrupted` branch of `onmessage`: `stop` is called on every
active source, the active set is cleared and the cursor is reset
to 0. -/
def interruptPlayback (st : PlaybackState) : PlaybackState :=
  { nextStartTime := 0
    activeSources := []
    stoppedSources := st.stoppedSources ++ st.activeSources }

/-- The `LogEntry.source` tag of the source (types module). -/
inductive LogSource
  | SYSTEM
  | USER
  | JARVIS
deriving DecidableEq, BEq, Repr

/-- The `TranscriptionItem.type` tag of the source (types module). -/
inductive TranscriptionType
  | input
  | output
deriving DecidableEq, BEq, Repr

/-- The `TranscriptionItem` record of the source (types module). -/
structure TranscriptionItem where
  text : String
  type : TranscriptionType
deriving DecidableEq, Repr

/-- The `transcriptionBufferRef` ref: one accumulating string per
direction. -/
structure TranscriptionBuffer where
  input : String
  output : String
deriving DecidableEq, Repr

/-- The `inputTranscription` branch of `onmessage`: the fragment is
appended to the input buffer. -/
def appendInputFragment (b : TranscriptionBuffer) (t : String) : TranscriptionBuffer :=
  { b with input := b.input ++ t }

/-- The `outputTranscription` branch of `onmessage`: the fragment is
appended to the output buffer. -/
def appendOutputFragment (b : TranscriptionBuffer) (t : String) : TranscriptionBuffer :=
  { b with output := b.output ++ t }

/-- Result of the `turnComplete` branch of `onmessage`: the log entries
emitted through `addLog` in emission order, the transcription item
appended to the history, and the buffer afterwards. -/
structure TurnResult where
  entries : List (LogSource × String)
  item : TranscriptionItem
  buffer : TranscriptionBuffer
deriving DecidableEq, Repr

/-- The `turnComplete` branch of `onmessage`: a non-empty input buffer
is logged with tag USER, a non-empty output buffer with tag JARVIS; the
history item takes text `output || input` and type `output ? output :
input`; the buffer is reset to two empty strings. -/
def onTurnComplete (b : TranscriptionBuffer) : TurnResult :=
  { entries :=
      (if b.input ≠ "" then [(LogSource.USER, b.input)] else []) ++
      (if b.output ≠ "" then [(LogSource.JARVIS, b.output)] else [])
    item :=
      { text := if b.output ≠ "" then b.output else b.input
        type := if b.output ≠ "" then .output else .input }
    buffer := { input := "", output := "" } }

/-- JavaScript `Array.prototype.slice(-n)`: the last `n` elements of the
array (the whole array when it is shorter than `n`). -/
def sliceLastN (l : List TranscriptionItem) (n : Nat) : List TranscriptionItem :=
  l.drop (l.length - n)

/-- The `setTranscriptions` update on turn completion:
`[...prev, item].slice(-5)`. -/
def pushTranscription (prev : List TranscriptionItem) (it : TranscriptionItem) :
    List TranscriptionItem :=
  sliceLastN (prev ++ [it]) 5

end Jarvis

namespace Jarvis

/-- Claim C1: for every reconnection attempt n with 1 ≤ n ≤ 5, the
backoff delay computed before scheduling attempt n equals
min(15000, 3000 · 2^(n−1)) ms, the delays for attempts 1..5 are exactly
[3000, 6000, 12000, 15000, 15000], and the attempt counter is
incremented before the delay is computed. -/
theorem c1_backoff_delays (s : Controller) (n : Nat)
    (h1 : 1 ≤ n) (h5 : n ≤ 5)
    (hint : s.intentionalDisconnect = false)
    (hatt : s.reconnectAttempts = n - 1) :
    (handleReconnection s).reconnectAttempts = n ∧
    (handleReconnection s).reconnectTimer = some (min 15000 (3000 * 2 ^ (n - 1))) ∧
    (List.range 5).map (fun i => reconnectDelay (i + 1)) = [3000, 6000, 12000, 15000, 15000] := by
  have hlt : n - 1 < MAX_RECONNECT_ATTEMPTS := by
    simp only [MAX_RECONNECT_ATTEMPTS]; omega
  have hn : n - 1 + 1 = n := by omega
  refine ⟨?_, ?_, by decide⟩
  · simp [handleReconnection, cleanup, hint, hatt, hlt, hn]
  · simp [handleReconnection, cleanup, hint, hatt, hlt, hn, reconnectDelay,
      RECONNECT_DELAY_BASE]

/-- Claim C2: after 5 consecutive failed reconnection attempts without a
successful handshake (a failed user start followed by reconnection
attempts 1..5 all failing), the state is ERROR, no reconnect timer is
pending, no connect is running or in flight, and the attempt counter is
reset awaiting a new user-initiated start. -/
theorem c2_reconnect_ceiling :
    c2_failRun.status = .ERROR ∧
    c2_failRun.reconnectTimer = none ∧
    c2_failRun.isConnecting = false ∧
    c2_failRun.openInFlight = false ∧
    c2_failRun.reconnectAttempts = 0 := by decide

/-- Counterexample to claim C3 as stated: starting a session with the
API key missing does schedule a reconnection attempt — the state after
the failed start holds a pending 3000 ms reconnect timer and attempt
counter 1, so the missing credential does enter the reconnection
loop. -/
theorem c3_counterexample :
    (userStart .keyMissing initialController).reconnectTimer = some 3000 ∧
    (userStart .keyMissing initialController).reconnectAttempts = 1 := by decide

/-- Claim C3 as amended: if the API key is absent when a connection
attempt runs, the attempt aborts by throwing into the common catch
block, which surfaces the ERROR state and then runs the ordinary
reconnection path: below the attempt ceiling and without an intentional
disconnect, a reconnection attempt is scheduled with the usual backoff
delay. -/
theorem c3_missing_key_enters_reconnect_loop (s : Controller)
    (hcg : s.isConnecting = false)
    (hco : s.isConnected = false)
    (hint : s.intentionalDisconnect = false)
    (hatt : s.reconnectAttempts < MAX_RECONNECT_ATTEMPTS) :
    (initSession .keyMissing s).status = .ERROR ∧
    (initSession .keyMissing s).reconnectTimer =
      some (reconnectDelay (s.reconnectAttempts + 1)) ∧
    (initSession .keyMissing s).reconnectAttempts = s.reconnectAttempts + 1 := by
  have hatt5 : s.reconnectAttempts < 5 := hatt
  by_cases h0 : s.reconnectAttempts = 0 <;>
    simp [initSession, handleReconnection, cleanup, MAX_RECONNECT_ATTEMPTS,
      hcg, hco, hint, hatt5, h0]

/-- Witness for the amended C3 at the initial state. -/
theorem c3_missing_key_enters_reconnect_loop_witness :
    initialController.reconnectAttempts < MAX_RECONNECT_ATTEMPTS ∧
    (initSession .keyMissing initialController).status = .ERROR ∧
    (initSession .keyMissing initialController).reconnectTimer =
      some (reconnectDelay (initialController.reconnectAttempts + 1)) ∧
    (initSession .keyMissing initialController).reconnectAttempts =
      initialController.reconnectAttempts + 1 :=
  ⟨by decide,
   c3_missing_key_enters_reconnect_loop initialController
     (by decide) (by decide) (by decide) (by decide)⟩

/-- Claim C4: from every state, after the user-initiated stop (which
sets the intentional flag first), a subsequent channel close or error
event leaves the state untouched: the status is IDLE and never
RECONNECTING, and no reconnect timer is pending. -/
theorem c4_intentional_disconnect_suppresses_reconnect (s : Controller) :
    onCloseOrError (disconnect s) = disconnect s ∧
    (onCloseOrError (disconnect s)).status = .IDLE ∧
    (onCloseOrError (disconnect s)).status ≠ .RECONNECTING ∧
    (onCloseOrError (disconnect s)).reconnectTimer = none := by
  simp [onCloseOrError, disconnect, cleanup]

/-- Counterexample to claim C5 as stated: consecutive chunks do not
always have gap 0.  From a fresh scheduler, a chunk of duration 1
arriving at output time 0 starts at 0 and moves the cursor to 1; a
second chunk arriving at output time 5 starts at max(1, 5) = 5, not at
the previous start + duration = 1, leaving a gap of 4. -/
theorem c5_gap_counterexample :
    (scheduleChunk (scheduleChunk initialPlayback 1 0 1).2 2 5 1).1 ≠
      (scheduleChunk initialPlayback 1 0 1).1 + 1 := by
  norm_num [scheduleChunk, initialPlayback]

/-- Claim C5 as amended: each chunk is scheduled at start time
max(cursor, current output time) and the cursor then advances by
exactly the chunk's duration; each chunk's start time ≥ the previous
chunk's start + duration (no overlap, arrival order) and the cursor is
monotonically non-decreasing; the gap between consecutive chunks is 0
provided the next chunk is scheduled while the output time has not
passed the cursor. -/
theorem c5_playback_scheduling (st : PlaybackState) (i1 i2 : Nat) (n1 d1 n2 d2 : ℚ)
    (hd1 : 0 ≤ d1) (hd2 : 0 ≤ d2) :
    (scheduleChunk st i1 n1 d1).1 = max st.nextStartTime n1 ∧
    ((scheduleChunk st i1 n1 d1).2).nextStartTime = (scheduleChunk st i1 n1 d1).1 + d1 ∧
    (scheduleChunk st i1 n1 d1).1 + d1 ≤
      (scheduleChunk (scheduleChunk st i1 n1 d1).2 i2 n2 d2).1 ∧
    st.nextStartTime ≤ ((scheduleChunk st i1 n1 d1).2).nextStartTime ∧
    ((scheduleChunk st i1 n1 d1).2).nextStartTime ≤
      ((scheduleChunk (scheduleChunk st i1 n1 d1).2 i2 n2 d2).2).nextStartTime ∧
    (n2 ≤ ((scheduleChunk st i1 n1 d1).2).nextStartTime →
      (scheduleChunk (scheduleChunk st i1 n1 d1).2 i2 n2 d2).1 =
        (scheduleChunk st i1 n1 d1).1 + d1) := by
  refine ⟨rfl, rfl, le_max_left _ _, ?_, ?_, ?_⟩
  · calc st.nextStartTime ≤ max st.nextStartTime n1 := le_max_left _ _
      _ ≤ max st.nextStartTime n1 + d1 := le_add_of_nonneg_right hd1
  · calc max st.nextStartTime n1 + d1 ≤
        max (max st.nextStartTime n1 + d1) n2 := le_max_left _ _
      _ ≤ max (max st.nextStartTime n1 + d1) n2 + d2 := le_add_of_nonneg_right hd2
  · intro h
    exact max_eq_left h

/-- Witness for the amended C5 on a fresh scheduler and two unit
chunks. -/
theorem c5_playback_scheduling_witness :
    (0:ℚ) ≤ 1 ∧
    ((scheduleChunk initialPlayback 1 0 1).1 = max initialPlayback.nextStartTime 0 ∧
     ((scheduleChunk initialPlayback 1 0 1).2).nextStartTime =
       (scheduleChunk initialPlayback 1 0 1).1 + 1 ∧
     (scheduleChunk initialPlayback 1 0 1).1 + 1 ≤
       (scheduleChunk (scheduleChunk initialPlayback 1 0 1).2 2 0 1).1 ∧
     initialPlayback.nextStartTime ≤ ((scheduleChunk initialPlayback 1 0 1).2).nextStartTime ∧
     ((scheduleChunk initialPlayback 1 0 1).2).nextStartTime ≤
       ((scheduleChunk (scheduleChunk initialPlayback 1 0 1).2 2 0 1).2).nextStartTime ∧
     ((0:ℚ) ≤ ((scheduleChunk initialPlayback 1 0 1).2).nextStartTime →
       (scheduleChunk (scheduleChunk initialPlayback 1 0 1).2 2 0 1).1 =
         (scheduleChunk initialPlayback 1 0 1).1 + 1)) :=
  ⟨by norm_num,
   c5_playback_scheduling initialPlayback 1 2 0 1 0 1 (by norm_num) (by norm_num)⟩

/-- Claim C6: after an interruption signal is processed, every source
that was active has been stopped, the active set is empty and the
cursor is reset to 0; a chunk scheduled afterwards starts at
max(0, now) ≥ the current output time. -/
theorem c6_interruption_reset (st : PlaybackState) (i : Nat) (now dur : ℚ)
    (_hnow : 0 ≤ now) :
    (interruptPlayback st).activeSources = [] ∧
    (interruptPlayback st).nextStartTime = 0 ∧
    (∀ x ∈ st.activeSources, x ∈ (interruptPlayback st).stoppedSources) ∧
    now ≤ (scheduleChunk (interruptPlayback st) i now dur).1 := by
  refine ⟨rfl, rfl, ?_, ?_⟩
  · intro x hx
    simp only [interruptPlayback, List.mem_append]
    exact Or.inr hx
  · simp only [scheduleChunk, interruptPlayback]
    exact le_max_right _ _

/-- Witness for C6: an interruption on a scheduler with cursor 7 and
two active sources, then a chunk arriving at output time 2. -/
theorem c6_interruption_reset_witness :
    (0:ℚ) ≤ 2 ∧
    ((interruptPlayback { nextStartTime := 7, activeSources := [3, 4], stoppedSources := [] }).activeSources = [] ∧
     (interruptPlayback { nextStartTime := 7, activeSources := [3, 4], stoppedSources := [] }).nextStartTime = 0 ∧
     (∀ x ∈ ({ nextStartTime := 7, activeSources := [3, 4], stoppedSources := [] } : PlaybackState).activeSources,
        x ∈ (interruptPlayback { nextStartTime := 7, activeSources := [3, 4], stoppedSources := [] }).stoppedSources) ∧
     (2:ℚ) ≤ (scheduleChunk (interruptPlayback { nextStartTime := 7, activeSources := [3, 4], stoppedSources := [] }) 9 2 1).1) :=
  ⟨by norm_num,
   c6_interruption_reset { nextStartTime := 7, activeSources := [3, 4], stoppedSources := [] }
     9 2 1 (by norm_num)⟩

/-- Claim C7: on turn-complete, a non-empty input buffer yields exactly
one USER entry carrying the concatenated input fragments and a
non-empty output buffer exactly one JARVIS entry; the headline type is
output when assistant text was produced and input otherwise; both
buffers are empty afterwards; an empty turn emits nothing; and input
fragments "Hello" + " there" with empty output yield exactly the single
entry (USER, "Hello there"). -/
theorem c7_turn_assembly (b : TranscriptionBuffer) :
    (b.input ≠ "" →
      (onTurnComplete b).entries.filter (fun e => decide (e.1 = LogSource.USER)) =
        [(LogSource.USER, b.input)]) ∧
    (b.output ≠ "" →
      (onTurnComplete b).entries.filter (fun e => decide (e.1 = LogSource.JARVIS)) =
        [(LogSource.JARVIS, b.output)]) ∧
    (b.output ≠ "" → (onTurnComplete b).item.type = .output) ∧
    (b.output = "" → (onTurnComplete b).item.type = .input) ∧
    (onTurnComplete b).buffer = { input := "", output := "" } ∧
    (b.input = "" → b.output = "" → (onTurnComplete b).entries = []) ∧
    (onTurnComplete (appendInputFragment (appendInputFragment
        { input := "", output := "" } "Hello") " there")).entries =
      [(LogSource.USER, "Hello there")] := by
  refine ⟨?_, ?_, ?_, ?_, rfl, ?_, by decide⟩
  · intro hi
    by_cases ho : b.output = "" <;> simp [onTurnComplete, hi, ho]
  · intro ho
    by_cases hi : b.input = "" <;> simp [onTurnComplete, hi, ho]
  · intro ho
    simp [onTurnComplete, ho]
  · intro ho
    simp [onTurnComplete, ho]
  · intro hi ho
    simp [onTurnComplete, hi, ho]

/-- Witness for C7 at the buffer holding input "Hello there" and an
empty output. -/
theorem c7_turn_assembly_witness :
    ("Hello there" : String) ≠ "" ∧
    (onTurnComplete { input := "Hello there", output := "" }).entries.filter
        (fun e => decide (e.1 = LogSource.USER)) =
      [(LogSource.USER, "Hello there")] :=
  ⟨by decide,
   (c7_turn_assembly { input := "Hello there", output := "" }).1 (by decide)⟩

/-- Claim C8: when the channel open handshake succeeds, the controller
is in the baseline idle-ready connected state (the spec's Listening:
status IDLE with `isConnected` true), the attempt counter is reset to 0
and the capture pipeline is started. -/
theorem c8_open_handshake_listening (s : Controller) :
    specSessionState (onopen s) = .Listening ∧
    (onopen s).status = .IDLE ∧
    (onopen s).isConnected = true ∧
    (onopen s).reconnectAttempts = 0 ∧
    (onopen s).captureActive = true := by
  simp [onopen, specSessionState]

/-- Claim C9, evaluated on the code at the racy run: after the user
starts a session, stops it while the channel open is still in flight
(the intentional flag is true and the open still pending), and the open
then settles, the `onopen` callback takes effect unchecked — the state
is connected again, the intentional-disconnect intent is cleared and
the capture pipeline restarts.  This contradicts the claim that the
settlement is checked against the connection intent. -/
theorem c9_late_open_settles_unchecked :
    (disconnect (userStart .launched initialController)).intentionalDisconnect = true ∧
    (disconnect (userStart .launched initialController)).openInFlight = true ∧
    c9_raceRun.isConnected = true ∧
    c9_raceRun.intentionalDisconnect = false ∧
    c9_raceRun.captureActive = true ∧
    c9_raceRun.status = .IDLE := by decide

/-- The last element of a drop of a concatenation with a singleton is
that singleton's element, when the drop does not reach past it. -/
theorem getLast_drop_concat {α : Type} (l : List α) (a : α) (k : Nat)
    (hk : k ≤ l.length) :
    ((l ++ [a]).drop k).getLast? = some a := by
  rw [List.drop_append_eq_append_drop]
  have h0 : k - l.length = 0 := by omega
  rw [h0, List.drop_zero]
  exact List.getLast?_concat _

/-- Claim C10: the finalized transcription history retains only the 5
most recent entries; every turn-complete appends at most one entry (the
result is a suffix of the previous history plus the new item, of length
min(previous + 1, 5)), the new item is always retained as the most
recent entry, and older entries are silently discarded. -/
theorem c10_transcription_history (prev : List TranscriptionItem) (it : TranscriptionItem) :
    (pushTranscription prev it).length = min (prev.length + 1) 5 ∧
    (pushTranscription prev it).length ≤ 5 ∧
    (pushTranscription prev it).length ≤ prev.length + 1 ∧
    List.IsSuffix (pushTranscription prev it) (prev ++ [it]) ∧
    (pushTranscription prev it).getLast? = some it := by
  have hlen : (pushTranscription prev it).length = min (prev.length + 1) 5 := by
    simp only [pushTranscription, sliceLastN, List.length_drop, List.length_append,
      List.length_cons, List.length_nil]
    omega
  refine ⟨hlen, ?_, ?_, ?_, ?_⟩
  · rw [hlen]; exact Nat.min_le_right _ _
  · rw [hlen]; exact Nat.min_le_left _ _
  · exact List.drop_suffix _ _
  · have hk : (prev ++ [it]).length - 5 ≤ prev.length := by
      simp only [List.length_append, List.length_cons, List.length_nil]
      omega
    exact getLast_drop_concat prev it _ hk

/-- Witness for C1 at attempt n = 4 from a state with counter 3. -/
theorem c1_backoff_delays_witness :
    1 ≤ 4 ∧
    (handleReconnection { initialController with reconnectAttempts := 3 }).reconnectAttempts = 4 ∧
    (handleReconnection { initialController with reconnectAttempts := 3 }).reconnectTimer =
      some (min 15000 (3000 * 2 ^ (4 - 1))) ∧
    (List.range 5).map (fun i => reconnectDelay (i + 1)) = [3000, 6000, 12000, 15000, 15000] :=
  ⟨by decide,
   c1_backoff_delays { initialController with reconnectAttempts := 3 } 4
     (by decide) (by decide) (by decide) (by decide)⟩

end Jarvis
